import Mathlib

/-!
Verification of the `hsa-tracker` Cloud Run OCR proxy
(`src/cloud-run-ocr/main.py`): a Flask service that authenticates a
shared-secret bearer token, forwards a base64 document to Document AI,
and maps the returned entities into an extraction result.

Shallow embedding conventions:
* Protobuf sub-message presence (`entity.normalized_value.money_value`
  truthiness) is modelled with `Option`.
* Python float arithmetic in `parse_expense_entities` is modelled over ℚ
  with an explicit IEEE-754 binary64 rounding step `fl` (round to nearest,
  ties to even, 53-bit significand) applied after each operation, exactly
  as CPython evaluates `float(units) + nanos / 1e9` and `dollars * 100`
  (the literals `1e9` and `100` are exactly representable, and `round` on
  a float is exact). Exponent-range effects (overflow, subnormals) are out
  of the magnitudes this service can meet and are not modelled. Python
  `round` is round-half-to-even, embedded as `pyRound` on ℚ.
* `str.strip()` removes the characters CPython treats as whitespace
  (`Py_UNICODE_ISSPACE`); `pyIsSpace` lists that set.
* Python string falsiness (`not s`) is `s = ""`; the outcome of
  `request.get_json()` is a `BodyOutcome`: the call can raise Flask's own
  error (unparseable JSON / wrong content type), return `None`, or return
  a parsed JSON value, on which the handler then tests Python falsiness
  and performs `data.get(...)` — an `AttributeError` on a non-dict value
  escapes the handler (the `try:` block starts later) and surfaces as the
  web framework's HTML error page, modelled as `RespBody.htmlError`.
  Field values read by the handler (`content`, `mimeType`) are strings,
  so JSON objects are carried as string-keyed string maps.
* The base64 decode and the Document AI call inside the `try:` block are
  the two effectful steps; each is passed to the handler as its outcome
  (`Except String _`), `Except.error msg` standing for a raised exception
  whose `str(e)` is `msg`.
-/

namespace HsaTracker

/-- `google.type.Money` as exposed on `entity.normalized_value.money_value`:
integer whole units and nano-units (billionths). -/
structure Money where
  units : Int
  nanos : Int
deriving Repr, DecidableEq

/-- `google.type.Date` as exposed on `entity.normalized_value.date_value`. -/
structure DateValue where
  year : Int
  month : Int
  day : Int
deriving Repr, DecidableEq

/-- The `normalized_value` sub-message of a Document AI entity; each variant
is present or absent. -/
structure NormalizedValue where
  money_value : Option Money
  date_value : Option DateValue
deriving Repr, DecidableEq

/-- A Document AI `Entity`: type tag, confidence, raw mention text and the
optional normalized value. -/
structure Entity where
  type_ : String
  confidence : Rat
  mention_text : String
  normalized_value : NormalizedValue
deriving Repr, DecidableEq

/-- `result["amount"]` value object: `{valueCents, confidence}`. -/
structure AmountField where
  valueCents : Int
  confidence : Rat
deriving Repr, DecidableEq

/-- `result["date"]` / `result["provider"]` value object: `{value, confidence}`. -/
structure TextField where
  value : String
  confidence : Rat
deriving Repr, DecidableEq

/-- The dict built by `parse_expense_entities`: optional `amount`, `date`
and `provider` keys. -/
structure ExtractionResult where
  amount : Option AmountField
  date : Option TextField
  provider : Option TextField
deriving Repr, DecidableEq

/-- Python `round` on an exact rational: round to nearest, ties to even. -/
def pyRound (q : Rat) : Int :=
  if q - ⌊q⌋ < 1 / 2 then ⌊q⌋
  else if 1 / 2 < q - ⌊q⌋ then ⌊q⌋ + 1
  else if 2 ∣ ⌊q⌋ then ⌊q⌋ else ⌊q⌋ + 1

/-- IEEE-754 binary64 rounding of an exact rational: scale by the power of
two that puts the magnitude in `[2^52, 2^53)` and round the significand to
nearest, ties to even. Exponent overflow and subnormals are outside the
magnitudes this program meets and are not modelled. -/
def fl (q : Rat) : Rat :=
  if q = 0 then 0
  else (pyRound (q / 2 ^ (Int.log 2 |q| - 52)) : Rat) * 2 ^ (Int.log 2 |q| - 52)

/-- `dollars = float(money.units or 0) + (money.nanos or 0) / 1e9` followed
by `round(dollars * 100)`: each float operation is the exact rational
operation followed by binary64 rounding (`1e9` and `100` are exactly
representable; `round` of a float is exact and rounds half to even). -/
def moneyToCents (m : Money) : Int :=
  pyRound (fl (fl (fl (m.units : Rat) + fl (fl (m.nanos : Rat) / 1000000000)) * 100))

/-- Python `f"{z:02d}"`: decimal rendering zero-padded to a minimum width
of two characters (a sign counts toward the width, as in Python). -/
def pyFormat02 (z : Int) : String :=
  if (toString z).length < 2 then "0" ++ toString z else toString z

/-- `f"{d.year}-{d.month:02d}-{d.day:02d}"`: the year is rendered with no
padding, month and day with `:02d`. -/
def formatDate (d : DateValue) : String :=
  toString d.year ++ "-" ++ pyFormat02 d.month ++ "-" ++ pyFormat02 d.day

/-- The characters Python `str.strip()` removes (CPython's
`Py_UNICODE_ISSPACE` set): `\t`–`\r` (9–13), the separators 28–31, space,
NEL (133), NBSP (160), Ogham space mark (0x1680), the en/em spaces
0x2000–0x200A, line and paragraph separators (0x2028, 0x2029), narrow
no-break space (0x202F), medium mathematical space (0x205F) and the
ideographic space (0x3000). -/
def pyIsSpace (c : Char) : Bool :=
  (9 ≤ c.toNat && c.toNat ≤ 13) || (28 ≤ c.toNat && c.toNat ≤ 31) || c.toNat == 32
    || c.toNat == 133 || c.toNat == 160 || c.toNat == 0x1680
    || (0x2000 ≤ c.toNat && c.toNat ≤ 0x200A) || c.toNat == 0x2028 || c.toNat == 0x2029
    || c.toNat == 0x202F || c.toNat == 0x205F || c.toNat == 0x3000

/-- Python `str.strip()`: drop leading and trailing whitespace. -/
def pyStrip (s : String) : String :=
  String.mk (((s.toList.dropWhile pyIsSpace).reverse.dropWhile pyIsSpace).reverse)

/-- One iteration of the `for entity in document.entities:` loop body of
`parse_expense_entities`: the `if/elif/elif` chain over the running dict. -/
def processEntity (r : ExtractionResult) (e : Entity) : ExtractionResult :=
  if e.type_ = "total_amount" ∧ e.normalized_value.money_value.isSome then
    match e.normalized_value.money_value with
    | some m => ⟨some ⟨moneyToCents m, e.confidence⟩, r.date, r.provider⟩
    | none => r
  else if e.type_ = "receipt_date" ∧ e.normalized_value.date_value.isSome then
    match e.normalized_value.date_value with
    | some d => ⟨r.amount, some ⟨formatDate d, e.confidence⟩, r.provider⟩
    | none => r
  else if e.type_ = "supplier_name" ∧ e.mention_text ≠ "" then
    ⟨r.amount, r.date, some ⟨pyStrip e.mention_text, e.confidence⟩⟩
  else r

/-- `parse_expense_entities(document)`: fold the loop body over the entity
list starting from the empty dict. -/
def parse_expense_entities (entities : List Entity) : ExtractionResult :=
  entities.foldl processEntity ⟨none, none, none⟩

/-- Environment configuration read at startup; `none` models an unset
environment variable. -/
structure Config where
  apiSecret : Option String
  projectId : Option String
  processorId : Option String

/-- `validate_auth()`: returns `(valid, error)`. The `Authorization` header
defaults to `""` when absent; `not API_SECRET` is checked first, then exact
string equality with `f"Bearer {API_SECRET}"`. -/
def validate_auth (apiSecret : Option String) (authHeader : Option String) :
    Bool × Option String :=
  if apiSecret.getD "" = "" then ⟨false, some "API_SECRET not configured"⟩
  else if authHeader.getD "" ≠ "Bearer " ++ apiSecret.getD "" then
    ⟨false, some "Invalid authorization"⟩
  else ⟨true, none⟩

/-- A parsed JSON value as Python sees it. The handler only ever reads
string-valued fields (`content`, `mimeType`), so objects carry
string-keyed string entries. -/
inductive PyJson where
  | null
  | boolVal (b : Bool)
  | intVal (n : Int)
  | strVal (s : String)
  | arrVal (elems : List PyJson)
  | objVal (fields : List (String × String))

/-- Python truthiness (`if not data:`) of a parsed JSON value. -/
def pyTruthy : PyJson → Bool
  | PyJson.null => false
  | PyJson.boolVal b => b
  | PyJson.intVal n => n ≠ 0
  | PyJson.strVal s => s ≠ ""
  | PyJson.arrVal elems => !elems.isEmpty
  | PyJson.objVal fields => !fields.isEmpty

/-- Outcome of `request.get_json()`: Flask itself raises for an unparseable
or wrongly typed payload (its own 400/415 error page, never reaching the
handler's checks), returns `None` (missing/non-JSON body under the
deployed Flask, or a literal JSON `null`), or returns a parsed value. -/
inductive BodyOutcome where
  | jsonError (status : Nat)
  | noBody
  | value (v : PyJson)

/-- A response produced for the request: a handler JSON body
(`{"error": …}`, `{"success": true, "data": …}`,
`{"success": false, "error": …}`) or the web framework's own HTML error
page (for an exception the handler does not catch), which carries neither
an `error` JSON field nor `data`. -/
inductive RespBody
  | errorBody (error : String)
  | okBody (data : ExtractionResult)
  | failBody (error : String)
  | htmlError
deriving Repr, DecidableEq

/-- The request body argument to the handler. -/
abbrev ReqBody := BodyOutcome

/-- `process_document()`: auth gate, config check, body checks, then the
`try:` block whose two effectful steps are passed in as outcomes
(`decodeResult` for `base64.b64decode`, `serviceResult` for the Document AI
round trip yielding `result.document.entities`). The `data.get` attribute
accesses sit before the `try:` block, so on a truthy non-dict body the
`AttributeError` escapes and the framework answers with its 500 page.
Returns (status, body). -/
def process_document (cfg : Config) (authHeader : Option String) (body : ReqBody)
    (decodeResult : Except String Unit)
    (serviceResult : Except String (List Entity)) : Nat × RespBody :=
  if (validate_auth cfg.apiSecret authHeader).1 = false then
    ⟨401, RespBody.errorBody ((validate_auth cfg.apiSecret authHeader).2.getD "")⟩
  else if cfg.projectId.getD "" = "" ∨ cfg.processorId.getD "" = "" then
    ⟨500, RespBody.errorBody "Missing configuration"⟩
  else
    match body with
    | BodyOutcome.jsonError status => ⟨status, RespBody.htmlError⟩
    | BodyOutcome.noBody => ⟨400, RespBody.errorBody "Missing request body"⟩
    | BodyOutcome.value v =>
      if pyTruthy v = false then ⟨400, RespBody.errorBody "Missing request body"⟩
      else
        match v with
        | PyJson.objVal obj =>
          if (obj.lookup "content").getD "" = "" ∨ (obj.lookup "mimeType").getD "" = "" then
            ⟨400, RespBody.errorBody "Missing content or mimeType"⟩
          else
            match decodeResult with
            | Except.error e => ⟨500, RespBody.failBody e⟩
            | Except.ok _ =>
              match serviceResult with
              | Except.error e => ⟨500, RespBody.failBody e⟩
              | Except.ok entities => ⟨200, RespBody.okBody (parse_expense_entities entities)⟩
        | _ => ⟨500, RespBody.htmlError⟩

/-! ### Helper lemmas about the rounding embedded from Python `round` -/

/-- `pyRound` is the identity on integers. -/
theorem pyRound_intCast (z : Int) : pyRound (z : Rat) = z := by
  unfold pyRound
  rw [Int.floor_intCast]
  norm_num

/-- `pyRound` returns a nearest integer: it is never further than `1/2`
from its argument. -/
theorem pyRound_nearest (q : Rat) : |q - (pyRound q : Rat)| ≤ 1 / 2 := by
  have h0 : 0 ≤ q - (⌊q⌋ : Rat) := sub_nonneg.mpr (Int.floor_le q)
  have h1 : q - (⌊q⌋ : Rat) < 1 := by
    have := Int.lt_floor_add_one q
    linarith
  unfold pyRound
  split_ifs with hlt hgt heven
  · rw [abs_of_nonneg h0]; linarith
  · push_cast
    rw [abs_of_nonpos (by linarith)]
    linarith
  · rw [abs_of_nonneg h0]; linarith
  · push_cast
    rw [abs_of_nonpos (by linarith)]
    linarith

/-- At a half-integer whose lower neighbour is even, `pyRound` picks the
even neighbour. -/
theorem pyRound_int_add_half_even (z : Int) (hz : 2 ∣ z) :
    pyRound ((z : Rat) + 1 / 2) = z := by
  have hf : ⌊(z : Rat) + 1 / 2⌋ = z := by
    rw [add_comm, Int.floor_add_int]
    have h0 : ⌊(1 / 2 : Rat)⌋ = 0 := by
      rw [Int.floor_eq_iff]
      norm_num
    rw [h0, zero_add]
  unfold pyRound
  rw [hf]
  have harg : (z : Rat) + 1 / 2 - (z : Rat) = 1 / 2 := by ring
  rw [harg]
  rw [if_neg (lt_irrefl _), if_neg (lt_irrefl _), if_pos hz]

/-! ### Helper lemmas about binary64 rounding -/

/-- `fl` has relative error at most `2^-53`. -/
theorem fl_error (q : Rat) : |fl q - q| ≤ |q| / 2 ^ 53 := by
  by_cases h : q = 0
  · simp [fl, h]
  · have habs : (0 : Rat) < |q| := abs_pos.mpr h
    have hlow : ((2 : Nat) : Rat) ^ (Int.log 2 |q|) ≤ |q| :=
      Int.zpow_log_le_self (by norm_num) habs
    set L : Int := Int.log 2 |q| with hL
    set e : Int := L - 52 with he
    have h2e : (0 : Rat) < 2 ^ e := zpow_pos (by norm_num) e
    have hq : q / 2 ^ e * 2 ^ e = q := div_mul_cancel₀ q (ne_of_gt h2e)
    have key : |fl q - q| = |q / 2 ^ e - (pyRound (q / 2 ^ e) : Rat)| * 2 ^ e := by
      unfold fl
      rw [if_neg h, ← hL, ← he]
      rw [show (pyRound (q / 2 ^ e) : Rat) * 2 ^ e - q
            = -((q / 2 ^ e - (pyRound (q / 2 ^ e) : Rat)) * 2 ^ e) by
          rw [sub_mul, hq]; ring]
      rw [abs_neg, abs_mul, abs_of_pos h2e]
    rw [key]
    have hb : |q / 2 ^ e - (pyRound (q / 2 ^ e) : Rat)| * 2 ^ e ≤ 1 / 2 * 2 ^ e := by
      have := pyRound_nearest (q / 2 ^ e)
      exact mul_le_mul_of_nonneg_right this (le_of_lt h2e)
    refine le_trans hb ?_
    have hsplit : (1 : Rat) / 2 * 2 ^ e = 2 ^ L / 2 ^ 53 := by
      rw [he, zpow_sub₀ (by norm_num : (2 : Rat) ≠ 0)]
      have h52 : ((2 : Rat) ^ (52 : Int)) = 2 ^ (52 : Nat) := by
        rw [← zpow_natCast]; norm_num
      have h53 : ((2 : Rat) ^ (53 : Nat)) = 2 ^ (52 : Nat) * 2 := by ring
      rw [h52, h53]
      ring
    rw [hsplit]
    have h2L : ((2 : Rat)) ^ L ≤ |q| := by
      have hc : ((2 : Nat) : Rat) = (2 : Rat) := by norm_num
      rwa [hc] at hlow
    gcongr

/-- Integers of magnitude below `2^53` are exactly representable. -/
theorem fl_int_exact (z : Int) (hz : |z| < 2 ^ 53) : fl (z : Rat) = (z : Rat) := by
  by_cases h0 : (z : Rat) = 0
  · rw [h0]; simp [fl]
  · have habs : (0 : Rat) < |(z : Rat)| := abs_pos.mpr h0
    have hup : |(z : Rat)| < (2 : Rat) ^ (53 : Nat) := by exact_mod_cast hz
    set L := Int.log 2 |(z : Rat)| with hL
    have hlow : ((2 : Nat) : Rat) ^ L ≤ |(z : Rat)| := Int.zpow_log_le_self (by norm_num) habs
    have hlow2 : (2 : Rat) ^ L ≤ |(z : Rat)| := by exact_mod_cast hlow
    have hL52 : L ≤ 52 := by
      by_contra hgt
      push_neg at hgt
      have h1 : (2 : Rat) ^ (53 : Int) ≤ (2 : Rat) ^ L :=
        zpow_le_zpow_right₀ (by norm_num) (by omega)
      have h2 : (2 : Rat) ^ (53 : Int) = 2 ^ (53 : Nat) := by
        rw [← zpow_natCast]; norm_num
      have h3 := lt_of_le_of_lt (h1.trans hlow2) hup
      rw [h2] at h3
      exact absurd h3 (lt_irrefl _)
    set k : Nat := (52 - L).toNat with hk
    have hek : L - 52 = -(k : Int) := by
      rw [hk, Int.toNat_of_nonneg (by omega)]
      ring
    unfold fl
    rw [if_neg h0, ← hL, hek]
    have hdiv : (z : Rat) / 2 ^ (-(k : Int)) = ((z * 2 ^ k : Int) : Rat) := by
      rw [zpow_neg, div_inv_eq_mul, zpow_natCast]
      push_cast
      ring
    rw [hdiv, pyRound_intCast, zpow_neg, zpow_natCast]
    push_cast
    have hne : (2 : Rat) ^ k ≠ 0 := pow_ne_zero k (by norm_num)
    field_simp

/-- Evaluate `fl` at a positive rational whose scaled significand is an
integer. -/
theorem fl_eval_pos_int (q : Rat) (L z : Int) (hq : 0 < q)
    (hlog : Int.log 2 q = L) (hdiv : q / 2 ^ (L - 52) = ((z : Int) : Rat)) :
    fl q = (z : Rat) * 2 ^ (L - 52) := by
  unfold fl
  rw [if_neg (ne_of_gt hq), abs_of_pos hq, hlog, hdiv, pyRound_intCast]

/-- Evaluate `fl` at a positive rational whose scaled significand is a
half-integer tie resolved to the even neighbour. -/
theorem fl_eval_pos_tie (q : Rat) (L z : Int) (hq : 0 < q) (hz : 2 ∣ z)
    (hlog : Int.log 2 q = L) (hdiv : q / 2 ^ (L - 52) = (z : Rat) + 1 / 2) :
    fl q = (z : Rat) * 2 ^ (L - 52) := by
  unfold fl
  rw [if_neg (ne_of_gt hq), abs_of_pos hq, hlog, hdiv, pyRound_int_add_half_even z hz]

/-- `fl` fixes zero. -/
theorem fl_zero : fl 0 = 0 := by simp [fl]

/-- `float(2^53 + 1)` rounds down to `2^53` (tie to the even significand). -/
theorem fl_two_pow_53_succ : fl (9007199254740993 : Rat) = 9007199254740992 := by
  have hlog : Int.log 2 (9007199254740993 : Rat) = 53 := by
    rw [show (9007199254740993 : Rat) = ((9007199254740993 : Nat) : Rat) by norm_num,
      Int.log_natCast]
    have h : Nat.log 2 9007199254740993 = 53 :=
      Nat.log_eq_of_pow_le_of_lt_pow (by norm_num) (by norm_num)
    exact_mod_cast h
  have hdiv : (9007199254740993 : Rat) / 2 ^ ((53 : Int) - 52)
      = ((4503599627370496 : Int) : Rat) + 1 / 2 := by
    rw [show (53 : Int) - 52 = 1 by norm_num, zpow_one]
    norm_num
  have h := fl_eval_pos_tie (9007199254740993 : Rat) 53 4503599627370496 (by norm_num)
    ⟨2251799813685248, by norm_num⟩ hlog hdiv
  rw [h, show (53 : Int) - 52 = 1 by norm_num, zpow_one]
  norm_num

/-- `2^53` is exactly representable. -/
theorem fl_two_pow_53 : fl (9007199254740992 : Rat) = 9007199254740992 := by
  have hlog : Int.log 2 (9007199254740992 : Rat) = 53 := by
    rw [show (9007199254740992 : Rat) = ((9007199254740992 : Nat) : Rat) by norm_num,
      Int.log_natCast]
    have h : Nat.log 2 9007199254740992 = 53 :=
      Nat.log_eq_of_pow_le_of_lt_pow (by norm_num) (by norm_num)
    exact_mod_cast h
  have hdiv : (9007199254740992 : Rat) / 2 ^ ((53 : Int) - 52)
      = ((4503599627370496 : Int) : Rat) := by
    rw [show (53 : Int) - 52 = 1 by norm_num, zpow_one]
    norm_num
  have h := fl_eval_pos_int (9007199254740992 : Rat) 53 4503599627370496 (by norm_num)
    hlog hdiv
  rw [h, show (53 : Int) - 52 = 1 by norm_num, zpow_one]
  norm_num

/-- `2^53 * 100 = 25 * 2^55` is exactly representable. -/
theorem fl_two_pow_53_times_100 :
    fl (900719925474099200 : Rat) = 900719925474099200 := by
  have hlog : Int.log 2 (900719925474099200 : Rat) = 59 := by
    rw [show (900719925474099200 : Rat) = ((900719925474099200 : Nat) : Rat) by norm_num,
      Int.log_natCast]
    have h : Nat.log 2 900719925474099200 = 59 :=
      Nat.log_eq_of_pow_le_of_lt_pow (by norm_num) (by norm_num)
    exact_mod_cast h
  have h7 : (2 : Rat) ^ ((59 : Int) - 52) = 128 := by
    rw [show (59 : Int) - 52 = 7 by norm_num]
    rw [show (7 : Int) = ((7 : Nat) : Int) by norm_num, zpow_natCast]
    norm_num
  have hdiv : (900719925474099200 : Rat) / 2 ^ ((59 : Int) - 52)
      = ((7036874417766400 : Int) : Rat) := by
    rw [h7]
    norm_num
  have h := fl_eval_pos_int (900719925474099200 : Rat) 59 7036874417766400 (by norm_num)
    hlog hdiv
  rw [h, h7]
  norm_num

/-! ### The float money pipeline: error bound and concrete values -/

/-- `moneyToCents` on an explicit units/nanos pair. -/
theorem moneyToCents_def (u n : Int) :
    moneyToCents ⟨u, n⟩
      = pyRound (fl (fl (fl (u : Rat) + fl (fl (n : Rat) / 1000000000)) * 100)) := rfl

/-- Rounding a value that sits within `10^-7` of a point of the
`10^-7`-grid lands within `1/2` of that grid point. -/
theorem pyRound_grid_nearest (C : Rat) (M : Int)
    (hC : |C - (M : Rat) / 10 ^ 7| < 1 / 10 ^ 7) :
    |(M : Rat) / 10 ^ 7 - (pyRound C : Rat)| ≤ 1 / 2 := by
  set s := pyRound C with hs
  have h1 : |C - (s : Rat)| ≤ 1 / 2 := pyRound_nearest C
  have h2 : |(M : Rat) / 10 ^ 7 - (s : Rat)| < 1 / 2 + 1 / 10 ^ 7 := by
    have hsym : |(M : Rat) / 10 ^ 7 - C| = |C - (M : Rat) / 10 ^ 7| := abs_sub_comm _ _
    calc |(M : Rat) / 10 ^ 7 - (s : Rat)|
        ≤ |(M : Rat) / 10 ^ 7 - C| + |C - (s : Rat)| := abs_sub_le _ _ _
      _ < 1 / 2 + 1 / 10 ^ 7 := by rw [hsym]; linarith
  have hK : (M : Rat) / 10 ^ 7 - (s : Rat) = ((M - s * 10 ^ 7 : Int) : Rat) / 10 ^ 7 := by
    push_cast
    field_simp
    ring
  rw [hK] at h2 ⊢
  rw [abs_div, abs_of_pos (by norm_num : (0 : Rat) < 10 ^ 7)] at h2 ⊢
  have h3 : |((M - s * 10 ^ 7 : Int) : Rat)| < 5000001 := by
    have h4 : (1 : Rat) / 2 + 1 / 10 ^ 7 = 5000001 / 10 ^ 7 := by norm_num
    rw [h4] at h2
    have h7pos : (0 : Rat) < 10 ^ 7 := by norm_num
    linarith [(div_lt_div_iff_of_pos_right h7pos).mp h2]
  have h5 : |M - s * 10 ^ 7| ≤ 5000000 := by
    have h3z : |M - s * 10 ^ 7| < 5000001 := by exact_mod_cast h3
    omega
  have h6 : |((M - s * 10 ^ 7 : Int) : Rat)| ≤ 5000000 := by exact_mod_cast h5
  calc |((M - s * 10 ^ 7 : Int) : Rat)| / 10 ^ 7 ≤ 5000000 / 10 ^ 7 := by gcongr
    _ = 1 / 2 := by norm_num

/-- Two integers within `1/2` of each other over ℚ are equal. -/
theorem int_eq_of_abs_sub_le_half (a b : Int) (h : |(a : Rat) - (b : Rat)| ≤ 1 / 2) :
    a = b := by
  have h1 : |((a - b : Int) : Rat)| ≤ 1 / 2 := by push_cast; exact h
  have h2 : |a - b| ≤ 0 := by
    by_contra hcon
    push_neg at hcon
    have h4 : (1 : Rat) ≤ |((a - b : Int) : Rat)| := by exact_mod_cast hcon
    linarith
  have h5 : a - b = 0 := abs_eq_zero.mp (le_antisymm h2 (abs_nonneg _))
  omega

/-- For amounts up to a million dollars (and nanos within the Money
encoding's range) the float pipeline's accumulated error stays below the
`10^-7`-cent granularity of the exact value, so the stored cents are a
nearest integer to the exact cent value. -/
theorem moneyToCents_nearest_of_bounded (u n : Int)
    (hu1 : -(10 ^ 6) ≤ u) (hu2 : u ≤ 10 ^ 6)
    (hn1 : -(10 ^ 9) ≤ n) (hn2 : n ≤ 10 ^ 9) :
    |((u : Rat) + (n : Rat) / 1000000000) * 100 - (moneyToCents ⟨u, n⟩ : Rat)| ≤ 1 / 2 := by
  rw [moneyToCents_def]
  have hU : |(u : Rat)| ≤ 10 ^ 6 := by
    rw [abs_le]
    constructor
    · exact_mod_cast hu1
    · exact_mod_cast hu2
  have hN : |(n : Rat)| ≤ 10 ^ 9 := by
    rw [abs_le]
    constructor
    · exact_mod_cast hn1
    · exact_mod_cast hn2
  have ha1 : fl (u : Rat) = (u : Rat) :=
    fl_int_exact u (lt_of_le_of_lt (abs_le.mpr ⟨hu1, hu2⟩) (by norm_num))
  have ha2 : fl (n : Rat) = (n : Rat) :=
    fl_int_exact n (lt_of_le_of_lt (abs_le.mpr ⟨hn1, hn2⟩) (by norm_num))
  rw [ha1, ha2]
  set U := (u : Rat) with hU0
  set N := (n : Rat) with hN0
  set x := N / 1000000000 with hx
  have hxb : |x| ≤ 1 := by
    rw [hx, abs_div, abs_of_pos (by norm_num : (0 : Rat) < 1000000000),
      div_le_one (by norm_num)]
    calc |N| ≤ 10 ^ 9 := hN
      _ = 1000000000 := by norm_num
  set a3 := fl x with ha3
  have h3 : |a3 - x| ≤ 1 / 2 ^ 53 := by
    calc |a3 - x| ≤ |x| / 2 ^ 53 := fl_error x
      _ ≤ 1 / 2 ^ 53 := by gcongr
  have ha3b : |a3| ≤ 2 := by
    have habs : |a3| ≤ |a3 - x| + |x| := by
      calc |a3| = |(a3 - x) + x| := by ring_nf
        _ ≤ |a3 - x| + |x| := abs_add _ _
    have hc : (1 : Rat) / 2 ^ 53 + 1 ≤ 2 := by norm_num
    linarith
  set S := U + a3 with hS
  set a4 := fl S with ha4
  have hSb : |S| ≤ 10 ^ 6 + 2 := by
    calc |S| ≤ |U| + |a3| := abs_add _ _
      _ ≤ 10 ^ 6 + 2 := by linarith
  have h4 : |a4 - S| ≤ (10 ^ 6 + 2) / 2 ^ 53 := by
    calc |a4 - S| ≤ |S| / 2 ^ 53 := fl_error S
      _ ≤ (10 ^ 6 + 2) / 2 ^ 53 := by gcongr
  have ha4b : |a4| ≤ 10 ^ 6 + 3 := by
    have habs : |a4| ≤ |a4 - S| + |S| := by
      calc |a4| = |(a4 - S) + S| := by ring_nf
        _ ≤ |a4 - S| + |S| := abs_add _ _
    have hc : (10 ^ 6 + 2 : Rat) / 2 ^ 53 + (10 ^ 6 + 2) ≤ 10 ^ 6 + 3 := by norm_num
    linarith
  set P := a4 * 100 with hP
  set C := fl P with hC
  have hPb : |P| ≤ (10 ^ 6 + 3) * 100 := by
    rw [hP, abs_mul, abs_of_pos (by norm_num : (0 : Rat) < 100)]
    linarith
  have h5 : |C - P| ≤ ((10 ^ 6 + 3) * 100) / 2 ^ 53 := by
    calc |C - P| ≤ |P| / 2 ^ 53 := fl_error P
      _ ≤ ((10 ^ 6 + 3) * 100) / 2 ^ 53 := by gcongr
  have hassemble : |C - (U + x) * 100| < 1 / 10 ^ 7 := by
    have hdecomp : C - (U + x) * 100 = (C - P) + 100 * (a4 - S) + 100 * (a3 - x) := by
      rw [hP, hS]; ring
    calc |C - (U + x) * 100|
        = |(C - P) + 100 * (a4 - S) + 100 * (a3 - x)| := by rw [hdecomp]
      _ ≤ |(C - P) + 100 * (a4 - S)| + |100 * (a3 - x)| := abs_add _ _
      _ ≤ |C - P| + |100 * (a4 - S)| + |100 * (a3 - x)| := by
          have hc := abs_add (C - P) (100 * (a4 - S))
          linarith
      _ = |C - P| + 100 * |a4 - S| + 100 * |a3 - x| := by
          rw [abs_mul, abs_mul, abs_of_pos (by norm_num : (0 : Rat) < 100)]
      _ ≤ ((10 ^ 6 + 3) * 100) / 2 ^ 53 + 100 * ((10 ^ 6 + 2) / 2 ^ 53)
            + 100 * (1 / 2 ^ 53) := by linarith
      _ < 1 / 10 ^ 7 := by norm_num
  have hE : (U + x) * 100 = ((10 ^ 9 * u + n : Int) : Rat) / 10 ^ 7 := by
    rw [hx, hU0, hN0]
    push_cast
    field_simp
    ring
  rw [hE]
  rw [hE] at hassemble
  exact pyRound_grid_nearest C (10 ^ 9 * u + n) hassemble

/-- The float pipeline loses the odd unit at `units = 2^53 + 1`: the
program stores `900719925474099200` cents where the exact cent value is
`900719925474099300`. -/
theorem moneyToCents_two_pow_53_succ :
    moneyToCents ⟨9007199254740993, 0⟩ = 900719925474099200 := by
  rw [moneyToCents_def]
  rw [show ((9007199254740993 : Int) : Rat) = 9007199254740993 by norm_num]
  rw [show ((0 : Int) : Rat) = 0 by norm_num]
  rw [fl_zero, zero_div, fl_zero, fl_two_pow_53_succ, add_zero, fl_two_pow_53]
  rw [show (9007199254740992 : Rat) * 100 = 900719925474099200 by norm_num]
  rw [fl_two_pow_53_times_100]
  rw [show (900719925474099200 : Rat) = ((900719925474099200 : Int) : Rat) by norm_num]
  rw [pyRound_intCast]

/-- The pipeline is exact at 12 dollars 500000000 nanos: 1250 cents. -/
theorem moneyToCents_example : moneyToCents ⟨12, 500000000⟩ = 1250 := by
  have hb := moneyToCents_nearest_of_bounded 12 500000000
    (by norm_num) (by norm_num) (by norm_num) (by norm_num)
  have harg : (((12 : Int) : Rat) + ((500000000 : Int) : Rat) / 1000000000) * 100
      = ((1250 : Int) : Rat) := by norm_num
  rw [harg] at hb
  exact (int_eq_of_abs_sub_le_half 1250 (moneyToCents ⟨12, 500000000⟩) hb).symm

/-! ### Eligibility of an entity for each extraction field -/

/-- The guard of the `total_amount` branch. -/
def amountEligible (e : Entity) : Prop :=
  e.type_ = "total_amount" ∧ e.normalized_value.money_value.isSome

/-- The guard of the `receipt_date` branch. -/
def dateEligible (e : Entity) : Prop :=
  e.type_ = "receipt_date" ∧ e.normalized_value.date_value.isSome

/-- The guard of the `supplier_name` branch. -/
def providerEligible (e : Entity) : Prop :=
  e.type_ = "supplier_name" ∧ e.mention_text ≠ ""

instance (e : Entity) : Decidable (amountEligible e) := by
  unfold amountEligible; infer_instance

instance (e : Entity) : Decidable (dateEligible e) := by
  unfold dateEligible; infer_instance

instance (e : Entity) : Decidable (providerEligible e) := by
  unfold providerEligible; infer_instance

/-- An entity that is not amount-eligible leaves `result["amount"]` unchanged. -/
theorem processEntity_amount_of_not_eligible (r : ExtractionResult) (e : Entity)
    (h : ¬ amountEligible e) : (processEntity r e).amount = r.amount := by
  unfold amountEligible at h
  unfold processEntity
  rw [if_neg h]
  split
  · split <;> rfl
  · split
    · rfl
    · rfl

/-- An entity that is not date-eligible leaves `result["date"]` unchanged. -/
theorem processEntity_date_of_not_eligible (r : ExtractionResult) (e : Entity)
    (h : ¬ dateEligible e) : (processEntity r e).date = r.date := by
  unfold dateEligible at h
  unfold processEntity
  by_cases h1 : e.type_ = "total_amount" ∧ e.normalized_value.money_value.isSome = true
  · rw [if_pos h1]
    rcases hmv : e.normalized_value.money_value with _ | m <;> rfl
  · rw [if_neg h1, if_neg h]
    by_cases h3 : e.type_ = "supplier_name" ∧ e.mention_text ≠ ""
    · rw [if_pos h3]
    · rw [if_neg h3]

/-- An entity that is not provider-eligible leaves `result["provider"]` unchanged. -/
theorem processEntity_provider_of_not_eligible (r : ExtractionResult) (e : Entity)
    (h : ¬ providerEligible e) : (processEntity r e).provider = r.provider := by
  unfold providerEligible at h
  unfold processEntity
  by_cases h1 : e.type_ = "total_amount" ∧ e.normalized_value.money_value.isSome = true
  · rw [if_pos h1]
    rcases hmv : e.normalized_value.money_value with _ | m <;> rfl
  · rw [if_neg h1]
    by_cases h2 : e.type_ = "receipt_date" ∧ e.normalized_value.date_value.isSome = true
    · rw [if_pos h2]
      rcases hdv : e.normalized_value.date_value with _ | d <;> rfl
    · rw [if_neg h2, if_neg h]

/-- Folding over a run of non-amount-eligible entities preserves `amount`. -/
theorem foldl_amount_of_not_eligible (l : List Entity) (r : ExtractionResult)
    (h : ∀ e ∈ l, ¬ amountEligible e) :
    (List.foldl processEntity r l).amount = r.amount := by
  induction l generalizing r with
  | nil => rfl
  | cons a t ih =>
    rw [List.foldl_cons, ih _ (fun e he => h e (List.mem_cons_of_mem a he))]
    exact processEntity_amount_of_not_eligible r a (h a (List.mem_cons_self a t))

/-- Folding over a run of non-date-eligible entities preserves `date`. -/
theorem foldl_date_of_not_eligible (l : List Entity) (r : ExtractionResult)
    (h : ∀ e ∈ l, ¬ dateEligible e) :
    (List.foldl processEntity r l).date = r.date := by
  induction l generalizing r with
  | nil => rfl
  | cons a t ih =>
    rw [List.foldl_cons, ih _ (fun e he => h e (List.mem_cons_of_mem a he))]
    exact processEntity_date_of_not_eligible r a (h a (List.mem_cons_self a t))

/-- Folding over a run of non-provider-eligible entities preserves `provider`. -/
theorem foldl_provider_of_not_eligible (l : List Entity) (r : ExtractionResult)
    (h : ∀ e ∈ l, ¬ providerEligible e) :
    (List.foldl processEntity r l).provider = r.provider := by
  induction l generalizing r with
  | nil => rfl
  | cons a t ih =>
    rw [List.foldl_cons, ih _ (fun e he => h e (List.mem_cons_of_mem a he))]
    exact processEntity_provider_of_not_eligible r a (h a (List.mem_cons_self a t))

/-- An amount-eligible entity overwrites `result["amount"]`. -/
theorem processEntity_amount_set (r : ExtractionResult) (e : Entity) (m : Money)
    (ht : e.type_ = "total_amount") (hm : e.normalized_value.money_value = some m) :
    (processEntity r e).amount = some ⟨moneyToCents m, e.confidence⟩ := by
  simp [processEntity, ht, hm]

/-- A date-eligible entity overwrites `result["date"]`. -/
theorem processEntity_date_set (r : ExtractionResult) (e : Entity) (d : DateValue)
    (ht : e.type_ = "receipt_date") (hd : e.normalized_value.date_value = some d) :
    (processEntity r e).date = some ⟨formatDate d, e.confidence⟩ := by
  simp [processEntity, ht, hd]

/-- A provider-eligible entity overwrites `result["provider"]`. -/
theorem processEntity_provider_set (r : ExtractionResult) (e : Entity)
    (ht : e.type_ = "supplier_name") (hm : e.mention_text ≠ "") :
    (processEntity r e).provider = some ⟨pyStrip e.mention_text, e.confidence⟩ := by
  simp [processEntity, ht, hm]

/-! ### Helper lemmas about the request gate -/

/-- The expected header value is never the empty string. -/
theorem bearer_ne_empty (s : String) : "Bearer " ++ s ≠ "" := by
  intro h
  have h7 : ("Bearer " ++ s).length = 0 := by rw [h]; rfl
  rw [String.length_append] at h7
  have hb : "Bearer ".length = 7 := rfl
  omega

/-- With a configured secret and the exact expected header the gate passes. -/
theorem validate_auth_ok (s : String) (hs : s ≠ "") :
    validate_auth (some s) (some ("Bearer " ++ s)) = ⟨true, none⟩ := by
  simp [validate_auth, hs]

/-- With an unset or empty secret the gate denies, citing configuration. -/
theorem validate_auth_secret_missing (apiSecret authHeader : Option String)
    (h : apiSecret.getD "" = "") :
    validate_auth apiSecret authHeader = ⟨false, some "API_SECRET not configured"⟩ := by
  unfold validate_auth
  rw [if_pos h]

/-- With a configured secret and any other header value the gate denies. -/
theorem validate_auth_bad_header (s : String) (authHeader : Option String)
    (hs : s ≠ "") (hh : authHeader ≠ some ("Bearer " ++ s)) :
    validate_auth (some s) authHeader = ⟨false, some "Invalid authorization"⟩ := by
  have hne : authHeader.getD "" ≠ "Bearer " ++ s := by
    cases authHeader with
    | none => exact fun h0 => bearer_ne_empty s h0.symm
    | some x => exact fun h0 => hh (by rw [Option.getD_some] at h0; rw [h0])
  simp [validate_auth, hs, hne]

/-! ### Claim theorems -/

/-- Counterexample to C1 as stated: at `units = 2^53 + 1, nanos = 0` the
double-precision pipeline stores `900719925474099200` cents, 100 cents
away from the exact value `900719925474099300 = (2^53 + 1) * 100`, so the
stored cents are not the exact dollar amount rounded to nearest. -/
theorem totalAmount_float_counterexample :
    (parse_expense_entities
      [⟨"total_amount", 1, "", ⟨some ⟨9007199254740993, 0⟩, none⟩⟩]).amount
      = some ⟨900719925474099200, 1⟩
    ∧ ¬(|((9007199254740993 : Rat) + (0 : Rat) / 1000000000) * 100
          - ((900719925474099200 : Int) : Rat)| ≤ 1 / 2) := by
  constructor
  · simp [parse_expense_entities, processEntity, moneyToCents_two_pow_53_succ]
  · intro h
    rw [show ((9007199254740993 : Rat) + (0 : Rat) / 1000000000) * 100
          - ((900719925474099200 : Int) : Rat) = 100 by norm_num] at h
    rw [show |(100 : Rat)| = 100 by norm_num] at h
    norm_num at h

/-- Claim C1 (amended): for every `total_amount` entity carrying a
normalized monetary value with `|units| ≤ 10^6` (amounts up to a million
dollars) and `|nanos| ≤ 10^9` (the Money encoding's range), the mapper
stores `amount.valueCents` within `1/2` of the exact cent value
`(units + nanos / 1e9) * 100` — round-to-nearest under an acceptable tie
rule — with `amount.confidence` equal to the entity's confidence; in
particular `units = 12, nanos = 500000000` yields `valueCents = 1250`.
Beyond double precision the pipeline can deviate (see the
counterexample at `units = 2^53 + 1`). -/
theorem totalAmount_valueCents_nearest_amended :
    (∀ (u n : Int) (conf : Rat),
      -(10 ^ 6) ≤ u → u ≤ 10 ^ 6 → -(10 ^ 9) ≤ n → n ≤ 10 ^ 9 →
      (parse_expense_entities [⟨"total_amount", conf, "", ⟨some ⟨u, n⟩, none⟩⟩]).amount
        = some ⟨moneyToCents ⟨u, n⟩, conf⟩
      ∧ |((u : Rat) + (n : Rat) / 1000000000) * 100 - (moneyToCents ⟨u, n⟩ : Rat)|
          ≤ 1 / 2)
    ∧ (parse_expense_entities
        [⟨"total_amount", 9 / 10, "", ⟨some ⟨12, 500000000⟩, none⟩⟩]).amount
        = some ⟨1250, 9 / 10⟩ := by
  constructor
  · intro u n conf hu1 hu2 hn1 hn2
    exact ⟨by simp [parse_expense_entities, processEntity],
      moneyToCents_nearest_of_bounded u n hu1 hu2 hn1 hn2⟩
  · simp [parse_expense_entities, processEntity, moneyToCents_example]

/-- Witness for the amended C1 at the spec's concrete monetary value. -/
theorem totalAmount_valueCents_nearest_amended_witness :
    (parse_expense_entities [⟨"total_amount", 1, "", ⟨some ⟨12, 500000000⟩, none⟩⟩]).amount
      = some ⟨moneyToCents ⟨12, 500000000⟩, 1⟩ :=
  (totalAmount_valueCents_nearest_amended.1 12 500000000 1 (by decide) (by decide)
    (by decide) (by decide)).1

/-- Claim C2: with the secret configured and non-empty, every request whose
`Authorization` header is missing or differs from the exact string
`Bearer <secret>` is answered `401` with body `{error: "Invalid
authorization"}`, regardless of body content, configuration of the other
variables, or the behaviour of the decode and analysis steps. -/
theorem process_invalid_auth_401 :
    ∀ (s : String) (authHeader : Option String) (body : ReqBody)
      (pid prid : Option String) (dec : Except String Unit)
      (svc : Except String (List Entity)),
      s ≠ "" → authHeader ≠ some ("Bearer " ++ s) →
      process_document ⟨some s, pid, prid⟩ authHeader body dec svc
        = ⟨401, RespBody.errorBody "Invalid authorization"⟩ := by
  intro s ah body pid prid dec svc hs hh
  have hva := validate_auth_bad_header s ah hs hh
  simp [process_document, hva]

/-- Witness for C2 at concrete inputs: wrong header, secret configured. -/
theorem process_invalid_auth_401_witness :
    process_document ⟨some "topsecret", some "proj", some "proc"⟩
        (some "Bearer wrong") BodyOutcome.noBody (Except.ok ()) (Except.ok [])
      = ⟨401, RespBody.errorBody "Invalid authorization"⟩ :=
  process_invalid_auth_401 "topsecret" (some "Bearer wrong") BodyOutcome.noBody
    (some "proj") (some "proc") (Except.ok ()) (Except.ok []) (by decide) (by decide)

/-- Claim C3: when `API_SECRET` is unset or empty, the gate denies with
reason `API_SECRET not configured` and the handler answers `401` with that
reason, regardless of the header, body, other configuration, or the
behaviour of the decode and analysis steps. -/
theorem process_secret_unset_401 :
    ∀ (secret authHeader : Option String) (body : ReqBody)
      (pid prid : Option String) (dec : Except String Unit)
      (svc : Except String (List Entity)),
      secret = none ∨ secret = some "" →
      validate_auth secret authHeader = ⟨false, some "API_SECRET not configured"⟩
      ∧ process_document ⟨secret, pid, prid⟩ authHeader body dec svc
        = ⟨401, RespBody.errorBody "API_SECRET not configured"⟩ := by
  intro secret ah body pid prid dec svc hsec
  have hget : secret.getD "" = "" := by rcases hsec with h | h <;> simp [h]
  have hva := validate_auth_secret_missing secret ah hget
  exact ⟨hva, by simp [process_document, hva]⟩

/-- Witness for C3 at concrete inputs: secret unset, header present. -/
theorem process_secret_unset_401_witness :
    process_document ⟨none, some "proj", some "proc"⟩ (some "Bearer x")
        (BodyOutcome.value (PyJson.objVal
          [("content", "Zm9v"), ("mimeType", "application/pdf")]))
        (Except.ok ()) (Except.ok [])
      = ⟨401, RespBody.errorBody "API_SECRET not configured"⟩ :=
  (process_secret_unset_401 none (some "Bearer x")
    (BodyOutcome.value (PyJson.objVal
      [("content", "Zm9v"), ("mimeType", "application/pdf")]))
    (some "proj") (some "proc") (Except.ok ()) (Except.ok []) (Or.inl rfl)).2

/-- Claim C4: when several entities produce the same extraction field, the
result holds the value and confidence of the entity processed last in
iteration order (for each of the three fields, any qualifying entity
followed only by non-qualifying ones determines the final field), with no
re-ranking by confidence. -/
theorem duplicate_entities_last_wins :
    ∀ (l1 l2 : List Entity) (e : Entity),
      ((∀ x ∈ l2, ¬ amountEligible x) → ∀ m : Money,
        e.type_ = "total_amount" → e.normalized_value.money_value = some m →
        (parse_expense_entities (l1 ++ e :: l2)).amount
          = some ⟨moneyToCents m, e.confidence⟩)
      ∧ ((∀ x ∈ l2, ¬ dateEligible x) → ∀ d : DateValue,
        e.type_ = "receipt_date" → e.normalized_value.date_value = some d →
        (parse_expense_entities (l1 ++ e :: l2)).date
          = some ⟨formatDate d, e.confidence⟩)
      ∧ ((∀ x ∈ l2, ¬ providerEligible x) →
        e.type_ = "supplier_name" → e.mention_text ≠ "" →
        (parse_expense_entities (l1 ++ e :: l2)).provider
          = some ⟨pyStrip e.mention_text, e.confidence⟩) := by
  intro l1 l2 e
  refine ⟨?_, ?_, ?_⟩
  · intro hl2 m ht hm
    unfold parse_expense_entities
    rw [List.foldl_append, List.foldl_cons, foldl_amount_of_not_eligible l2 _ hl2]
    exact processEntity_amount_set _ e m ht hm
  · intro hl2 d ht hd
    unfold parse_expense_entities
    rw [List.foldl_append, List.foldl_cons, foldl_date_of_not_eligible l2 _ hl2]
    exact processEntity_date_set _ e d ht hd
  · intro hl2 ht hm
    unfold parse_expense_entities
    rw [List.foldl_append, List.foldl_cons, foldl_provider_of_not_eligible l2 _ hl2]
    exact processEntity_provider_set _ e ht hm

/-- Witness for C4: two `total_amount` entities; the later, lower-confidence
one wins. -/
theorem duplicate_entities_last_wins_witness :
    (parse_expense_entities
      [⟨"total_amount", 1, "", ⟨some ⟨5, 0⟩, none⟩⟩,
       ⟨"total_amount", 1 / 4, "", ⟨some ⟨7, 0⟩, none⟩⟩,
       ⟨"supplier_name", 1, "X", ⟨none, none⟩⟩]).amount
      = some ⟨moneyToCents ⟨7, 0⟩, 1 / 4⟩ :=
  (duplicate_entities_last_wins
    [⟨"total_amount", 1, "", ⟨some ⟨5, 0⟩, none⟩⟩]
    [⟨"supplier_name", 1, "X", ⟨none, none⟩⟩]
    ⟨"total_amount", 1 / 4, "", ⟨some ⟨7, 0⟩, none⟩⟩).1
    (by decide) ⟨7, 0⟩ rfl rfl

/-- Claim C5: every `receipt_date` entity carrying a normalized date with
numeric year, month and day is stored as `date.value` in dash-separated
order with month and day rendered by the two-digit zero-padding formatter
(which yields exactly two characters on 0–99); in particular `year = 2024,
month = 3, day = 7` yields `"2024-03-07"`. -/
theorem receipt_date_value_format :
    (∀ (y m d : Int) (conf : Rat),
      (parse_expense_entities [⟨"receipt_date", conf, "", ⟨none, some ⟨y, m, d⟩⟩⟩]).date
        = some ⟨toString y ++ "-" ++ pyFormat02 m ++ "-" ++ pyFormat02 d, conf⟩)
    ∧ (∀ k : Fin 100, (pyFormat02 (k.val : Int)).length = 2)
    ∧ (parse_expense_entities
        [⟨"receipt_date", 1, "", ⟨none, some ⟨2024, 3, 7⟩⟩⟩]).date
        = some ⟨"2024-03-07", 1⟩ := by
  refine ⟨?_, by decide, ?_⟩
  · intro y m d conf
    simp [parse_expense_entities, processEntity, formatDate]
  · have hfd : formatDate ⟨2024, 3, 7⟩ = "2024-03-07" := by decide
    simp [parse_expense_entities, processEntity, hfd]

/-- Claim C6: every `supplier_name` entity with non-empty mention text is
stored as `provider.value` equal to the mention text stripped of leading
and trailing whitespace, with the entity's confidence; in particular
`"  Acme Corp  "` yields `"Acme Corp"`, and so does a mention wrapped in
non-ASCII whitespace (NBSP and ideographic space). -/
theorem supplier_name_value_stripped :
    (∀ (txt : String) (conf : Rat), txt ≠ "" →
      (parse_expense_entities [⟨"supplier_name", conf, txt, ⟨none, none⟩⟩]).provider
        = some ⟨pyStrip txt, conf⟩)
    ∧ (parse_expense_entities
        [⟨"supplier_name", 1, "  Acme Corp  ", ⟨none, none⟩⟩]).provider
        = some ⟨"Acme Corp", 1⟩
    ∧ (parse_expense_entities
        [⟨"supplier_name", 1, "\u00A0Acme Corp\u3000", ⟨none, none⟩⟩]).provider
        = some ⟨"Acme Corp", 1⟩ := by
  refine ⟨?_, ?_, ?_⟩
  · intro txt conf h
    simp [parse_expense_entities, processEntity, h]
  · have hst : pyStrip "  Acme Corp  " = "Acme Corp" := by decide
    simp [parse_expense_entities, processEntity, hst]
  · have hst : pyStrip "\u00A0Acme Corp\u3000" = "Acme Corp" := by decide
    simp [parse_expense_entities, processEntity, hst]

/-- Witness for C6 at a concrete non-empty mention text. -/
theorem supplier_name_value_stripped_witness :
    (parse_expense_entities
      [⟨"supplier_name", 1, " HSA Pharmacy ", ⟨none, none⟩⟩]).provider
      = some ⟨pyStrip " HSA Pharmacy ", 1⟩ :=
  supplier_name_value_stripped.1 " HSA Pharmacy " 1 (by decide)

/-- Claim C7: for an authorized, well-formed request, if the base64 decode
raises or the external analysis call raises, the handler answers `500` with
body `{success: false, error: <the raised message>}`, and the response body
is never the success shape carrying a `data` field. -/
theorem process_upstream_failure_500 :
    ∀ (s p q : String) (obj : List (String × String)) (c mt msg : String)
      (dec : Except String Unit) (svc : Except String (List Entity)),
      s ≠ "" → p ≠ "" → q ≠ "" → obj ≠ [] →
      obj.lookup "content" = some c → c ≠ "" →
      obj.lookup "mimeType" = some mt → mt ≠ "" →
      (dec = Except.error msg ∨ (dec = Except.ok () ∧ svc = Except.error msg)) →
      msg ≠ "" →
      process_document ⟨some s, some p, some q⟩ (some ("Bearer " ++ s))
        (BodyOutcome.value (PyJson.objVal obj)) dec svc
        = ⟨500, RespBody.failBody msg⟩
      ∧ ∀ dta : ExtractionResult,
        (process_document ⟨some s, some p, some q⟩ (some ("Bearer " ++ s))
          (BodyOutcome.value (PyJson.objVal obj)) dec svc).2 ≠ RespBody.okBody dta := by
  intro s p q obj c mt msg dec svc hs hp hq hobj hc hcne hmt hmtne hfail hmsg
  have h500 : process_document ⟨some s, some p, some q⟩ (some ("Bearer " ++ s))
      (BodyOutcome.value (PyJson.objVal obj)) dec svc = ⟨500, RespBody.failBody msg⟩ := by
    rcases hfail with hd | ⟨hd, hsvc⟩
    · simp [process_document, validate_auth_ok s hs, hp, hq, pyTruthy, hobj, hc, hcne,
        hmt, hmtne, hd]
    · simp [process_document, validate_auth_ok s hs, hp, hq, pyTruthy, hobj, hc, hcne,
        hmt, hmtne, hd, hsvc]
  refine ⟨h500, ?_⟩
  intro dta
  rw [h500]
  simp

/-- Witness for C7: concrete authorized request whose decode step raises. -/
theorem process_upstream_failure_500_witness :
    process_document ⟨some "topsecret", some "proj", some "proc"⟩
        (some ("Bearer " ++ "topsecret"))
        (BodyOutcome.value (PyJson.objVal
          [("content", "!!!"), ("mimeType", "application/pdf")]))
        (Except.error "Invalid base64-encoded string") (Except.ok [])
      = ⟨500, RespBody.failBody "Invalid base64-encoded string"⟩ :=
  (process_upstream_failure_500 "topsecret" "proj" "proc"
    [("content", "!!!"), ("mimeType", "application/pdf")]
    "!!!" "application/pdf" "Invalid base64-encoded string"
    (Except.error "Invalid base64-encoded string") (Except.ok [])
    (by decide) (by decide) (by decide) (by decide) rfl (by decide) rfl (by decide)
    (Or.inl rfl) (by decide)).1

/-- Counterexample to C8 as stated: an authorized, fully configured request
whose body is valid JSON but not an object — here `[1]`, which is truthy —
passes the falsiness check, and `data.get("content")` then raises
`AttributeError` outside the `try:` block; the framework answers with its
500 error page, not with `400 {error: "Missing request body"}`. -/
theorem process_nonobject_body_counterexample :
    process_document ⟨some "s", some "p", some "q"⟩ (some "Bearer s")
        (BodyOutcome.value (PyJson.arrVal [PyJson.intVal 1]))
        (Except.ok ()) (Except.ok [])
      = ⟨500, RespBody.htmlError⟩
    ∧ process_document ⟨some "s", some "p", some "q"⟩ (some "Bearer s")
        (BodyOutcome.value (PyJson.arrVal [PyJson.intVal 1]))
        (Except.ok ()) (Except.ok [])
      ≠ ⟨400, RespBody.errorBody "Missing request body"⟩ := by
  constructor
  · rfl
  · decide

/-- Claim C8 (amended): for an authorized request with complete
configuration, the handler answers `400` with
`{error: "Missing request body"}` exactly when `request.get_json()` yields
`None` or a falsy parsed value (`null`, `false`, `0`, `""`, `[]`, `{}`);
a truthy body that is not a JSON object instead escapes as an
`AttributeError` at `data.get` and is answered by the framework's 500
error page (a raw payload that Flask itself refuses never reaches these
checks at all). -/
theorem process_missing_body_400_amended :
    ∀ (s p q : String) (body : ReqBody) (dec : Except String Unit)
      (svc : Except String (List Entity)),
      s ≠ "" → p ≠ "" → q ≠ "" →
      ((body = BodyOutcome.noBody
          ∨ ∃ v, body = BodyOutcome.value v ∧ pyTruthy v = false) →
        process_document ⟨some s, some p, some q⟩ (some ("Bearer " ++ s)) body dec svc
          = ⟨400, RespBody.errorBody "Missing request body"⟩)
      ∧ (∀ v : PyJson, body = BodyOutcome.value v → pyTruthy v = true →
          (∀ fields, v ≠ PyJson.objVal fields) →
          process_document ⟨some s, some p, some q⟩ (some ("Bearer " ++ s)) body dec svc
            = ⟨500, RespBody.htmlError⟩) := by
  intro s p q body dec svc hs hp hq
  constructor
  · intro hb
    rcases hb with hb | ⟨v, hb, hv⟩
    · simp [process_document, validate_auth_ok s hs, hp, hq, hb]
    · simp [process_document, validate_auth_ok s hs, hp, hq, hb, hv]
  · intro v hb hv hobj
    subst hb
    cases v with
    | objVal fields => exact absurd rfl (hobj fields)
    | null => simp [pyTruthy] at hv
    | boolVal b => simp [process_document, validate_auth_ok s hs, hp, hq, hv]
    | intVal m => simp [process_document, validate_auth_ok s hs, hp, hq, hv]
    | strVal str => simp [process_document, validate_auth_ok s hs, hp, hq, hv]
    | arrVal elems => simp [process_document, validate_auth_ok s hs, hp, hq, hv]

/-- Witness for the amended C8: `get_json()` returned `None`. -/
theorem process_missing_body_400_amended_witness :
    process_document ⟨some "topsecret", some "proj", some "proc"⟩
        (some ("Bearer " ++ "topsecret")) BodyOutcome.noBody
        (Except.ok ()) (Except.ok [])
      = ⟨400, RespBody.errorBody "Missing request body"⟩ :=
  (process_missing_body_400_amended "topsecret" "proj" "proc" BodyOutcome.noBody
    (Except.ok ()) (Except.ok []) (by decide) (by decide) (by decide)).1 (Or.inl rfl)

/-- Counterexample to C9 as stated: an authorized, fully configured request
whose body parses as the empty JSON object (so `content` is missing) is
answered `400` with `{error: "Missing request body"}` — not with
`{error: "Missing content or mimeType"}` — because the handler tests the
parsed dict for Python falsiness before looking at the fields. -/
theorem process_empty_object_counterexample :
    process_document ⟨some "s", some "p", some "q"⟩ (some "Bearer s")
        (BodyOutcome.value (PyJson.objVal [])) (Except.ok ()) (Except.ok [])
      = ⟨400, RespBody.errorBody "Missing request body"⟩
    ∧ process_document ⟨some "s", some "p", some "q"⟩ (some "Bearer s")
        (BodyOutcome.value (PyJson.objVal [])) (Except.ok ()) (Except.ok [])
      ≠ ⟨400, RespBody.errorBody "Missing content or mimeType"⟩ := by
  constructor
  · rfl
  · decide

/-- Claim C9 (amended): for an authorized request with complete
configuration and a body parsing to a non-empty object in which `content`
or `mimeType` is missing or empty, the handler answers `400` with
`{error: "Missing content or mimeType"}` for every behaviour of the decode
and analysis steps (so the external service's outcome is irrelevant); a
body parsing to the empty object is instead answered `400` with
`{error: "Missing request body"}`. -/
theorem process_missing_fields_400_amended :
    ∀ (s p q : String) (obj : List (String × String))
      (dec : Except String Unit) (svc : Except String (List Entity)),
      s ≠ "" → p ≠ "" → q ≠ "" →
      (obj ≠ [] →
        (obj.lookup "content").getD "" = "" ∨ (obj.lookup "mimeType").getD "" = "" →
        process_document ⟨some s, some p, some q⟩ (some ("Bearer " ++ s))
          (BodyOutcome.value (PyJson.objVal obj)) dec svc
          = ⟨400, RespBody.errorBody "Missing content or mimeType"⟩)
      ∧ (obj = [] →
        process_document ⟨some s, some p, some q⟩ (some ("Bearer " ++ s))
          (BodyOutcome.value (PyJson.objVal obj)) dec svc
          = ⟨400, RespBody.errorBody "Missing request body"⟩) := by
  intro s p q obj dec svc hs hp hq
  constructor
  · intro hobj hmiss
    simp [process_document, validate_auth_ok s hs, hp, hq, pyTruthy, hobj, hmiss]
  · intro hobj
    simp [process_document, validate_auth_ok s hs, hp, hq, pyTruthy, hobj]

/-- Witness for the amended C9: body with `mimeType` but no `content`. -/
theorem process_missing_fields_400_amended_witness :
    process_document ⟨some "topsecret", some "proj", some "proc"⟩
        (some ("Bearer " ++ "topsecret"))
        (BodyOutcome.value (PyJson.objVal [("mimeType", "application/pdf")]))
        (Except.ok ()) (Except.ok [])
      = ⟨400, RespBody.errorBody "Missing content or mimeType"⟩ :=
  (process_missing_fields_400_amended "topsecret" "proj" "proc"
    [("mimeType", "application/pdf")] (Except.ok ()) (Except.ok [])
    (by decide) (by decide) (by decide)).1 (by decide) (Or.inl (by decide))

/-- Claim C10: a `supplier_name` entity whose mention text is non-empty but
all whitespace still populates the provider field, with the empty string as
stored value (the non-emptiness check precedes stripping). -/
theorem whitespace_mention_empty_provider :
    ∀ (txt : String) (conf : Rat), txt ≠ "" → (∀ c ∈ txt.toList, pyIsSpace c) →
      (parse_expense_entities [⟨"supplier_name", conf, txt, ⟨none, none⟩⟩]).provider
        = some ⟨"", conf⟩ := by
  intro txt conf h hws
  have hstrip : pyStrip txt = "" := by
    unfold pyStrip
    rw [List.dropWhile_eq_nil_iff.mpr hws]
    rfl
  simp [parse_expense_entities, processEntity, h, hstrip]

/-- Witness for C10 at a single non-breaking space, a non-ASCII character
Python strip treats as whitespace. -/
theorem whitespace_mention_empty_provider_witness :
    (parse_expense_entities [⟨"supplier_name", 1, "\u00A0", ⟨none, none⟩⟩]).provider
      = some ⟨"", 1⟩ :=
  whitespace_mention_empty_provider "\u00A0" 1 (by decide) (by decide)

end HsaTracker
